import Mathlib

set_option maxRecDepth 1000000

/-!
Verification of the OTP issue/verify handlers of the orozcorealty.ai
repository (Netlify serverless functions).

The repository contains several concatenated versions of each handler file.
We shallowly embed the versions the specification's claims refer to:

* `VerifyBlob`   — the Netlify-Blobs verify handler
                   (src/netlify/functions/verify-code.js, first version);
* `VerifySupa`   — the Supabase verify handler
                   (src/netlify/functions/verify-code.js, second version);
* `VerifyP010`   — the Supabase verify handler in src/unnamed/part_010;
* `SendP001`     — the Supabase issue handler in src/unnamed/part_001;
* `SendV1`       — the Supabase issue handler
                   (src/netlify/functions/send-code.js, first version);
* `P003`         — the principal-binding hasher in src/unnamed/part_003.

Machine integers are modelled as `Nat` with explicit reduction modulo 2^32
where the JavaScript code relies on 32-bit semantics (inside SHA-256).
Timestamps (`Date.now()` milliseconds) are `Nat`.  The key/value blob store
is an association list, the Supabase `email_codes` table a list of rows.
SHA-256 is implemented in full so that digest comparisons performed by the
handlers are the real ones.
-/

/-! ### Decimal strings

`decChars n` is the list of characters of the usual decimal representation
of `n`, i.e. the JavaScript `String(n)` / `n.toString()`.  `parseDecL` maps
it back to the number; leading `'0'` characters do not change the value. -/

def digitChar (d : Nat) : Char := Char.ofNat (48 + d)

def decCharsAux (fuel : Nat) (n : Nat) : List Char :=
  match fuel with
  | 0 => []
  | fuel + 1 =>
      if n < 10 then [digitChar n]
      else decCharsAux fuel (n / 10) ++ [digitChar (n % 10)]

def decChars (n : Nat) : List Char := decCharsAux (n + 1) n

def decimalRepr (n : Nat) : String := String.mk (decChars n)

def parseStep (a : Nat) (c : Char) : Nat := a * 10 + (c.toNat - 48)

def parseDecL (l : List Char) : Nat := l.foldl parseStep 0

/-- JavaScript `s.padStart(w, c)`: prepend copies of `c` until width `w`. -/
def padStart (w : Nat) (c : Char) (s : String) : String :=
  String.mk (List.replicate (w - s.data.length) c ++ s.data)

/-! ### SHA-256

A complete executable SHA-256 over byte lists, producing the lowercase hex
digest string, exactly what `createHash('sha256').update(s).digest('hex')`
(and `crypto.subtle.digest("SHA-256", ...)` plus hex encoding) return. -/

def w32 (x : Nat) : Nat := x % 4294967296

def rotr32 (n x : Nat) : Nat := w32 ((x >>> n) ||| (x <<< (32 - n)))

def shaCh (x y z : Nat) : Nat := (x &&& y) ^^^ ((x ^^^ 4294967295) &&& z)

def shaMaj (x y z : Nat) : Nat := (x &&& y) ^^^ (x &&& z) ^^^ (y &&& z)

def bigS0 (x : Nat) : Nat := rotr32 2 x ^^^ rotr32 13 x ^^^ rotr32 22 x

def bigS1 (x : Nat) : Nat := rotr32 6 x ^^^ rotr32 11 x ^^^ rotr32 25 x

def smallS0 (x : Nat) : Nat := rotr32 7 x ^^^ rotr32 18 x ^^^ (x >>> 3)

def smallS1 (x : Nat) : Nat := rotr32 17 x ^^^ rotr32 19 x ^^^ (x >>> 10)

def shaK : List Nat :=
  [1116352408, 1899447441, 3049323471, 3921009573, 961987163,
   1508970993, 2453635748, 2870763221, 3624381080, 310598401,
   607225278, 1426881987, 1925078388, 2162078206, 2614888103,
   3248222580, 3835390401, 4022224774, 264347078, 604807628,
   770255983, 1249150122, 1555081692, 1996064986, 2554220882,
   2821834349, 2952996808, 3210313671, 3336571891, 3584528711,
   113926993, 338241895, 666307205, 773529912, 1294757372,
   1396182291, 1695183700, 1986661051, 2177026350, 2456956037,
   2730485921, 2820302411, 3259730800, 3345764771, 3516065817,
   3600352804, 4094571909, 275423344, 430227734, 506948616,
   659060556, 883997877, 958139571, 1322822218, 1537002063,
   1747873779, 1955562222, 2024104815, 2227730452, 2361852424,
   2428436474, 2756734187, 3204031479, 3329325298]

def shaH0 : List Nat :=
  [1779033703, 3144134277, 1013904242, 2773480762,
   1359893119, 2600822924, 528734635, 1541459225]

def chunksOfAux (fuel : Nat) (n : Nat) (l : List Nat) : List (List Nat) :=
  match fuel, l with
  | 0, _ => []
  | _, [] => []
  | fuel + 1, x :: xs => (x :: xs.take n) :: chunksOfAux fuel n (xs.drop n)

/-- Split a list into chunks of `n + 1` elements. -/
def chunksOf (n : Nat) (l : List Nat) : List (List Nat) :=
  chunksOfAux l.length n l

/-- Four big-endian bytes to one 32-bit word. -/
def wordOf (b : List Nat) : Nat :=
  match b with
  | [b0, b1, b2, b3] => b0 * 16777216 + b1 * 65536 + b2 * 256 + b3
  | _ => 0

/-- SHA-256 padding: message bytes, `0x80`, zeros, 64-bit big-endian
bit length, totalling a multiple of 64 bytes. -/
def shaPad (msg : List Nat) : List Nat :=
  let len := msg.length
  let zeros := (119 - len % 64) % 64
  let bitLen := 8 * len
  msg ++ [128] ++ List.replicate zeros 0 ++
    ((List.range 8).map (fun i => (bitLen >>> (8 * (7 - i))) &&& 255))

/-- Extend a 16-word block to the 64-word message schedule
(`k` remaining extension steps). -/
def shaExtend (k : Nat) (w : List Nat) : List Nat :=
  match k with
  | 0 => w
  | k + 1 =>
      let t := w.length
      let v := w32 (smallS1 (w.getD (t - 2) 0) + w.getD (t - 7) 0 +
                    smallS0 (w.getD (t - 15) 0) + w.getD (t - 16) 0)
      shaExtend k (w ++ [v])

/-- One compression round on the 8-word working state. -/
def shaRound (st : List Nat) (kw : Nat × Nat) : List Nat :=
  match st with
  | [a, b, c, d, e, f, g, h] =>
      let t1 := w32 (h + bigS1 e + shaCh e f g + kw.1 + kw.2)
      let t2 := w32 (bigS0 a + shaMaj a b c)
      [w32 (t1 + t2), a, b, c, w32 (d + t1), e, f, g]
  | st => st

/-- Process one 64-byte block: run 64 rounds, add into the hash state. -/
def shaBlock (h : List Nat) (block : List Nat) : List Nat :=
  let w := shaExtend 48 ((chunksOf 3 block).map wordOf)
  let st := (shaK.zip w).foldl shaRound h
  (h.zip st).map (fun p => w32 (p.1 + p.2))

def hexDigit (n : Nat) : Char :=
  if n < 10 then Char.ofNat (48 + n) else Char.ofNat (87 + n)

/-- One 32-bit word to 8 lowercase hex characters (big-endian). -/
def hexWord (x : Nat) : List Char :=
  (List.range 8).map (fun i => hexDigit ((x >>> (4 * (7 - i))) &&& 15))

/-- UTF-8 bytes of a character (as in `TextEncoder` / Node `utf8`). -/
def utf8Bytes (c : Char) : List Nat :=
  let n := c.toNat
  if n < 128 then [n]
  else if n < 2048 then [192 + n / 64, 128 + n % 64]
  else if n < 65536 then [224 + n / 4096, 128 + (n / 64) % 64, 128 + n % 64]
  else [240 + n / 262144, 128 + (n / 4096) % 64, 128 + (n / 64) % 64,
        128 + n % 64]

def strBytes (s : String) : List Nat :=
  (s.data.map utf8Bytes).foldr (fun a b => a ++ b) []

/-- Hex digest: `createHash('sha256').update(s).digest('hex')`. -/
def sha256hex (s : String) : String :=
  let final := (chunksOf 63 (shaPad (strBytes s))).foldl shaBlock shaH0
  String.mk ((final.map hexWord).foldr (fun a b => a ++ b) [])

/-! ### HTTP replies

All handlers reply with JSON bodies of the shape
`{ ok?, error?, message? }` plus a status code; `Reply` records the parts
the specification's claims talk about.  `ok = true` models a body
containing `ok: true`. -/

structure Reply where
  status : Nat
  ok : Bool
  error : Option String
  message : Option String
deriving DecidableEq

/-! ### The Netlify-Blobs verify handler

First version in src/netlify/functions/verify-code.js.  The blob store is
an association list from keys to stored values.  A stored value either
parses as the JSON record `{ hash, expiresAt, attempts, channel }`
(constructor `BlobVal.parsed`; `store.set` always writes `JSON.stringify` of
such a record, which parses back to it) or is a corrupt blob that
`JSON.parse` rejects (constructor `BlobVal.bad`).  `expiresAt` and
`attempts` are optional, mirroring `(data.expiresAt || 0)` and
`(data.attempts || 0)` on possibly missing JSON fields. -/

structure BlobData where
  hash : String
  expiresAt : Option Nat
  attempts : Option Nat
deriving DecidableEq

inductive BlobVal where
  | parsed (d : BlobData)
  | bad (s : String)
deriving DecidableEq

abbrev BlobStore := List (String × BlobVal)

def storeGet : BlobStore → String → Option BlobVal
  | [], _ => none
  | p :: t, k => if p.1 = k then some p.2 else storeGet t k

def storeDelete : BlobStore → String → BlobStore
  | [], _ => []
  | p :: t, k => if p.1 = k then storeDelete t k else p :: storeDelete t k

def storeSet (st : BlobStore) (k : String) (v : BlobVal) : BlobStore :=
  (k, v) :: storeDelete st k

namespace VerifyBlob

def replyMissing : Reply := ⟨400, false, some "Missing email or code", none⟩

def replyNoCode : Reply :=
  ⟨400, false, some "No code on record. Please request a new one.", none⟩

def replyCorrupt : Reply :=
  ⟨400, false, some "Code invalid. Request a new one.", none⟩

def replyExpired : Reply :=
  ⟨400, false, some "Code expired. Request a new one.", none⟩

def replyTooMany : Reply :=
  ⟨429, false, some "Too many attempts. Request a new code.", none⟩

def replyInvalid : Reply := ⟨400, false, some "Invalid code", none⟩

def replyOk : Reply := ⟨200, true, none, none⟩

/-- The handler body after request parsing: `email` is the trimmed,
lowercased email and `code` the trimmed code from the request, `now` is
`Date.now()`.  Returns the HTTP reply and the store after the call. -/
def handler (email code : String) (store : BlobStore) (now : Nat) :
    Reply × BlobStore :=
  if email = "" ∨ code = "" then (replyMissing, store)
  else
    let key := "code:" ++ email
    match storeGet store key with
    | none => (replyNoCode, store)
    | some (.bad _) => (replyCorrupt, storeDelete store key)
    | some (.parsed d) =>
        if now > d.expiresAt.getD 0 then (replyExpired, storeDelete store key)
        else if d.attempts.getD 0 ≥ 10 then
          (replyTooMany, storeDelete store key)
        else if sha256hex code = d.hash then (replyOk, storeDelete store key)
        else
          (replyInvalid,
           storeSet store key
             (.parsed { d with attempts := some (d.attempts.getD 0 + 1) }))

end VerifyBlob

/-! ### The Supabase handlers' table

`email_codes` rows as used by the second verify-code.js version, by
src/unnamed/part_010 and by the issue handlers.  `expires_at`/`created_at`
are millisecond timestamps (`Date.parse` of the stored ISO string);
`expires_at = none` models a null/unparseable value (`Date.parse` NaN,
which the handlers coerce to `0`). -/

structure SupaRow where
  email : String
  code_hash : String
  attempts : Nat
  expires_at : Option Nat
  created_at : Nat
deriving DecidableEq

abbrev Table := List SupaRow

/-- Query `select * where email = e order by created_at desc limit 1`. -/
def latestFor (tbl : Table) (e : String) : Option SupaRow :=
  List.foldl
    (fun acc r =>
      match acc with
      | none => some r
      | some b => if r.created_at > b.created_at then some r else some b)
    none (List.filter (fun r => r.email == e) tbl)

/-- Update `attempts` to `n` where the email and created_at match. -/
def setAttempts (tbl : Table) (e : String) (c : Nat) (n : Nat) : Table :=
  List.map
    (fun r =>
      if r.email == e && r.created_at == c then { r with attempts := n }
      else r)
    tbl

namespace VerifySupa

def replyBadInput : Reply := ⟨400, false, some "Email and 6-digit code required", none⟩

def replyNoCode : Reply := ⟨400, false, some "No code found for this email", none⟩

def replyTooMany : Reply := ⟨403, false, some "Too many attempts", none⟩

def replyExpired : Reply := ⟨400, false, some "Expired code", none⟩

def replyInvalid : Reply := ⟨400, false, some "Invalid code", none⟩

def replyOk : Reply :=
  ⟨200, true, none, some "Code verified. User is authenticated/cleared."⟩

/-- Second version in src/netlify/functions/verify-code.js.  Note: the
attempt ceiling is 5, an over-limit or expired row is NOT deleted (expiry
bumps `attempts` instead), and a successful match neither deletes nor
marks the row. -/
def handler (email code : String) (tbl : Table) (now : Nat) :
    Reply × Table :=
  if email = "" ∨ code = "" ∨ code.length ≠ 6 then (replyBadInput, tbl)
  else
    match latestFor tbl email with
    | none => (replyNoCode, tbl)
    | some row =>
        if row.attempts ≥ 5 then (replyTooMany, tbl)
        else
          let exp := row.expires_at.getD 0
          if exp = 0 ∨ now > exp then
            (replyExpired, setAttempts tbl row.email row.created_at (row.attempts + 1))
          else if sha256hex code = row.code_hash then (replyOk, tbl)
          else
            (replyInvalid, setAttempts tbl row.email row.created_at (row.attempts + 1))

end VerifySupa

namespace VerifyP010

def replyMissing : Reply := ⟨400, false, some "Missing email or code", none⟩

def replyNoCode : Reply :=
  ⟨400, false, some "No code on record. Please request a new one.", none⟩

def replyTooMany : Reply := ⟨429, false, some "Too many attempts.", none⟩

def replyExpired : Reply := ⟨400, false, some "Code expired.", none⟩

def replyInvalid : Reply := ⟨400, false, some "Invalid code.", none⟩

def replyOk : Reply := ⟨200, true, none, none⟩

/-- Update `attempts` to `n` for every row of the principal (part_010 sets
the selected row's count plus one on all of them). -/
def bumpAll (tbl : Table) (e : String) (n : Nat) : Table :=
  List.map (fun r => if r.email == e then { r with attempts := n } else r) tbl

/-- The verify handler in src/unnamed/part_010: it selects the single row
for the email (`.single()`), checks attempts then expiry, and then bumps
`attempts` BEFORE branching on the hash comparison, so even a successful
verification increments the counter, and no branch deletes the row. -/
def handler (email code : String) (tbl : Table) (now : Nat) :
    Reply × Table :=
  if email = "" ∨ code = "" then (replyMissing, tbl)
  else
    match List.find? (fun r => r.email == email) tbl with
    | none => (replyNoCode, tbl)
    | some row =>
        if row.attempts ≥ 5 then (replyTooMany, tbl)
        else if now > row.expires_at.getD 0 then (replyExpired, tbl)
        else
          let bumped := bumpAll tbl row.email (row.attempts + 1)
          if sha256hex code = row.code_hash then (replyOk, bumped)
          else (replyInvalid, bumped)

end VerifyP010

/-! ### Email syntax check

`/^[^@\s]+@[^@\s]+\.[^@\s]+$/` as used by src/unnamed/part_001 (and by
part_003 and the blobs-optional send-code version): a non-empty run of
non-`@`, non-whitespace characters, one `@`, and a domain of such
characters containing a dot that has at least one character on each side.
`isWsChar` covers the ASCII whitespace class of JavaScript `\s` (the
claims only involve ASCII principals). -/

def isWsChar (c : Char) : Bool :=
  c == ' ' || c == '\t' || c == '\n' || c == '\r' ||
  c == '\x0b' || c == '\x0c'

def okAtomChar (c : Char) : Bool := !(c == '@' || isWsChar c)

/-- A dot at some position of `l` with at least one character before and
one after it. -/
def hasInteriorDot (l : List Char) : Bool :=
  List.contains (List.dropLast (l.drop 1)) '.'

def isEmail (s : String) : Bool :=
  match List.findIdx? (fun c => c == '@') s.data with
  | none => false
  | some i =>
      let loc := s.data.take i
      let dom := s.data.drop (i + 1)
      !loc.isEmpty && loc.all okAtomChar && dom.all okAtomChar &&
        hasInteriorDot dom

/-- Side effects attempted by an issue handler, in order. -/
inductive Ev where
  | dbInsert
  | emailSend
deriving DecidableEq

namespace SendP001

/-- The `makeCode` of src/unnamed/part_001: `crypto.randomInt(0, 1000000)`
(a cryptographically secure uniform draw `n < 1000000`, passed here as
the parameter) rendered in decimal and left-padded with `'0'` to width
6. -/
def makeCode (n : Nat) : String := padStart 6 '0' (decimalRepr n)

/-- sha256 of the code, src/unnamed/part_001's `hashCode` — the principal
is not part of the input. -/
def hashCode (code : String) : String := sha256hex code

/-- A row of `email_codes` as inserted by part_001 (the opaque jsonb
`context` column, never inspected by any claim, is represented by its
three components which part_001 also stores as flat columns). -/
structure Row001 where
  email : String
  code_hash : String
  attempts : Nat
  expires_at : Nat
  rank : String
  last_name : String
  phone : String
deriving DecidableEq

def replyBadEmail : Reply := ⟨400, false, some "Valid email required", none⟩

def replyDbFail : Reply := ⟨500, false, some "DB insert failed.", none⟩

def replyMailFail : Reply := ⟨500, false, some "Email send failed", none⟩

def replyOk : Reply :=
  ⟨200, true, none, some "Code created, stored, and emailed."⟩

/-- The issue handler of src/unnamed/part_001 after body parsing.  `n` is
the secure random draw, `dbOk` whether the Supabase insert succeeds,
`emailOk` whether the Resend send succeeds; the returned event list
records the side effects attempted, in order.  A failed send surfaces a
500 but the inserted row is not rolled back (the source comments: "Code
is already stored in DB, so we just surface that email failed"). -/
def handler (email rank lastName phone : String) (n : Nat)
    (db : List Row001) (dbOk emailOk : Bool) (now : Nat) :
    Reply × List Row001 × List Ev :=
  if email = "" ∨ isEmail email = false then (replyBadEmail, db, [])
  else
    let code := makeCode n
    let row : Row001 :=
      ⟨email, hashCode code, 0, now + 600000, rank, lastName, phone⟩
    if dbOk = false then (replyDbFail, db, [.dbInsert])
    else if emailOk = false then
      (replyMailFail, db ++ [row], [.dbInsert, .emailSend])
    else (replyOk, db ++ [row], [.dbInsert, .emailSend])

end SendP001

namespace SendV1

/-- The code generator of the first send-code.js version, line 66:
`String(Math.floor(100000 + Math.random() * 900000))`.  `Math.random()`
is a non-cryptographic draw in `[0, 1)`, so the possible outputs are
exactly the decimal strings of `100000 + j` for `j < 900000`; the
parameter `k % 900000` ranges over exactly these `j`.  No padding is
applied (none is ever needed: the value is at least 100000). -/
def genCode (k : Nat) : String := decimalRepr (100000 + k % 900000)

/-- The `hashCode` of the first send-code.js version (lines 29–35): SHA-256
of the code alone. -/
def hashCode (code : String) : String := sha256hex code

/-- The digest that this version stores for a given principal and code
(line 67: `code_hash = await hashCode(code)`): the principal does not
enter the digest input. -/
def storedDigest (principal code : String) : String := hashCode code

def replyMissing : Reply := ⟨400, false, some "Missing email", none⟩

def replyDbFail : Reply := ⟨500, false, some "DB insert failed.", none⟩

def replyInternal : Reply := ⟨500, false, some "Internal error", none⟩

def replyOk : Reply := ⟨200, true, none, none⟩

/-- The issue handler of the first send-code.js version after body
parsing.  The only principal validation is non-emptiness (line 59:
`if (!email)`).  A Resend failure throws and is caught by the outer
catch (line 138), returning 500 without rolling back the inserted row. -/
def handler (email : String) (k : Nat) (db : Table) (dbOk emailOk : Bool)
    (now : Nat) : Reply × Table × List Ev :=
  if email = "" then (replyMissing, db, [])
  else
    let row : SupaRow := ⟨email, hashCode (genCode k), 0, some (now + 600000), now⟩
    if dbOk = false then (replyDbFail, db, [.dbInsert])
    else if emailOk = false then
      (replyInternal, db ++ [row], [.dbInsert, .emailSend])
    else (replyOk, db ++ [row], [.dbInsert, .emailSend])

end SendV1

namespace P003

/-- The digest input of src/unnamed/part_003's `hashCode` (lines 35–40):
`email + ":" + code`. -/
def hashInput (email code : String) : String := email ++ ":" ++ code

/-- src/unnamed/part_003's `hashCode(email, code)`:
`sha256(email + ":" + code)` — the principal is bound into the digest. -/
def hashCode (email code : String) : String := sha256hex (hashInput email code)

end P003

/-! ### Concrete records used by witnesses and counterexamples -/

def exHash : String := sha256hex "482913"

def exData0 : BlobData := ⟨exHash, some 600000, some 0⟩

def exStore0 : BlobStore := [("code:a@x.com", BlobVal.parsed exData0)]

def exData10 : BlobData := ⟨exHash, some 600000, some 10⟩

def exStore10 : BlobStore := [("code:a@x.com", BlobVal.parsed exData10)]

def exDataExp : BlobData := ⟨exHash, some 500, some 0⟩

def exStoreExp : BlobStore := [("code:a@x.com", BlobVal.parsed exDataExp)]

def exStoreBad : BlobStore := [("code:a@x.com", BlobVal.bad "not json")]

def exRowSupa : SupaRow := ⟨"a@x.com", sha256hex "123456", 0, some 600000, 0⟩

def exRowSupa5 : SupaRow := ⟨"a@x.com", sha256hex "123456", 5, some 600000, 0⟩

def exRowSupaExp : SupaRow := ⟨"a@x.com", sha256hex "123456", 0, some 500, 0⟩

def exRow10 : SupaRow := ⟨"a@x.com", sha256hex "482913", 0, some 600000, 0⟩

/-- The set of outputs of the first send-code.js version's generator. -/
def canOutputV1 (s : String) : Prop := ∃ k, SendV1.genCode k = s

/-! ### Store lemmas -/

theorem storeGet_delete (st : BlobStore) (k : String) :
    storeGet (storeDelete st k) k = none := by
  induction st with
  | nil => rfl
  | cons p t ih =>
      by_cases h : p.1 = k
      · simpa [storeDelete, h] using ih
      · simpa [storeDelete, storeGet, h] using ih

theorem storeGet_delete_ne (st : BlobStore) (k k' : String) (h : k' ≠ k) :
    storeGet (storeDelete st k) k' = storeGet st k' := by
  induction st with
  | nil => rfl
  | cons p t ih =>
      by_cases hp : p.1 = k
      · have h1 : ¬ (k = k') := fun e => h e.symm
        simp [storeDelete, storeGet, hp, h1, ih]
      · by_cases hq : p.1 = k'
        · simp [storeDelete, storeGet, hp, hq, h]
        · simp [storeDelete, storeGet, hp, hq, ih]

theorem storeGet_set (st : BlobStore) (k : String) (v : BlobVal) :
    storeGet (storeSet st k v) k = some v := by
  simp [storeSet, storeGet]

theorem storeGet_set_ne (st : BlobStore) (k k' : String) (v : BlobVal)
    (h : k' ≠ k) : storeGet (storeSet st k v) k' = storeGet st k' := by
  have : k ≠ k' := fun he => h he.symm
  simp [storeSet, storeGet, this, storeGet_delete_ne st k k' h]

/-! ### Decimal representation lemmas -/

theorem digitChar_toNat (d : Nat) (h : d < 10) :
    (digitChar d).toNat = 48 + d := by
  interval_cases d <;> decide

theorem digitChar_isDigit (d : Nat) (h : d < 10) :
    (digitChar d).isDigit = true := by
  interval_cases d <;> decide

theorem decCharsAux_parse (fuel : Nat) : ∀ n a, n < fuel →
    List.foldl parseStep a (decCharsAux fuel n) =
      a * 10 ^ (decCharsAux fuel n).length + n := by
  induction fuel with
  | zero => intro n a h; omega
  | succ fuel ih =>
      intro n a h
      by_cases h10 : n < 10
      · simp [decCharsAux, h10, parseStep, digitChar_toNat n h10]
      · have hfm : n / 10 < fuel := by
          have h1 : n / 10 < n := Nat.div_lt_self (by omega) (by omega)
          omega
        have heq : decCharsAux (fuel + 1) n
            = decCharsAux fuel (n / 10) ++ [digitChar (n % 10)] := by
          simp [decCharsAux, h10]
        have hmod : (digitChar (n % 10)).toNat = 48 + n % 10 :=
          digitChar_toNat (n % 10) (Nat.mod_lt n (by omega))
        have hdm : 10 * (n / 10) + n % 10 = n := Nat.div_add_mod n 10
        rw [heq, List.foldl_append, ih (n / 10) a hfm]
        calc parseStep (a * 10 ^ (decCharsAux fuel (n / 10)).length + n / 10)
              (digitChar (n % 10))
            = (a * 10 ^ (decCharsAux fuel (n / 10)).length + n / 10) * 10
                + n % 10 := by
              simp [parseStep, hmod]
          _ = a * 10 ^ ((decCharsAux fuel (n / 10)).length + 1)
                + (10 * (n / 10) + n % 10) := by ring
          _ = a * 10 ^ (decCharsAux fuel (n / 10) ++
                [digitChar (n % 10)]).length + n := by
              rw [hdm]; simp
  
theorem parse_decChars (n : Nat) : parseDecL (decChars n) = n := by
  have h := decCharsAux_parse (n + 1) n 0 (by omega)
  simpa [parseDecL, decChars] using h

theorem foldl_parse_replicate_zero (k a : Nat) :
    List.foldl parseStep a (List.replicate k '0') = a * 10 ^ k := by
  induction k generalizing a with
  | zero => simp
  | succ k ih =>
      have hz : parseStep a '0' = a * 10 := by simp [parseStep]
      calc List.foldl parseStep a (List.replicate (k + 1) '0')
          = List.foldl parseStep (parseStep a '0') (List.replicate k '0') := by
            simp [List.replicate_succ]
        _ = (a * 10) * 10 ^ k := by rw [hz, ih]
        _ = a * 10 ^ (k + 1) := by ring

theorem parse_pad_decChars (k n : Nat) :
    parseDecL (List.replicate k '0' ++ decChars n) = n := by
  have h := decCharsAux_parse (n + 1) n 0 (by omega)
  simp [parseDecL, List.foldl_append, foldl_parse_replicate_zero]
  simpa [decChars] using h

theorem decCharsAux_length (fuel : Nat) : ∀ n k, n < fuel → n < 10 ^ k →
    1 ≤ k → (decCharsAux fuel n).length ≤ k := by
  induction fuel with
  | zero => intro n k h; omega
  | succ fuel ih =>
      intro n k h hk h1
      by_cases h10 : n < 10
      · simp [decCharsAux, h10]; omega
      · have hk2 : 2 ≤ k := by
          by_contra hc
          have hk1 : k = 1 := by omega
          rw [hk1] at hk
          simp at hk
          omega
        have hdiv : n / 10 < 10 ^ (k - 1) := by
          rw [Nat.div_lt_iff_lt_mul (by omega)]
          have hp : 10 ^ (k - 1) * 10 = 10 ^ k := by
            rw [← pow_succ]
            congr 1
            omega
          omega
        have hfm : n / 10 < fuel := by
          have h1 : n / 10 < n := Nat.div_lt_self (by omega) (by omega)
          omega
        have hrec := ih (n / 10) (k - 1) hfm hdiv (by omega)
        have heq : decCharsAux (fuel + 1) n
            = decCharsAux fuel (n / 10) ++ [digitChar (n % 10)] := by
          simp [decCharsAux, h10]
        rw [heq]
        simp
        omega

theorem decCharsAux_digits (fuel : Nat) : ∀ n, n < fuel →
    (decCharsAux fuel n).all Char.isDigit = true := by
  induction fuel with
  | zero => intro n h; omega
  | succ fuel ih =>
      intro n h
      by_cases h10 : n < 10
      · simp [decCharsAux, h10, digitChar_isDigit n h10]
      · have hfm : n / 10 < fuel := by
          have h1 : n / 10 < n := Nat.div_lt_self (by omega) (by omega)
          omega
        have hmod := digitChar_isDigit (n % 10) (Nat.mod_lt n (by omega))
        simp [decCharsAux, h10, List.all_append, ih (n / 10) hfm, hmod]


/-! ### Claim C1 -/

/-- Claim C1, amended to the blob-store verify handler: for a live record
whose stored digest matches the candidate code's digest, verify deletes
the record and returns success, and a second verify call for the same
principal afterwards (any time) returns NotFound.  (The Supabase verify
version does not delete on success — see the counterexample.) -/
theorem claim1_blob_one_time_use (email code : String) (store : BlobStore)
    (now now2 : Nat) (d : BlobData)
    (he : email ≠ "") (hc : code ≠ "")
    (hget : storeGet store ("code:" ++ email) = some (BlobVal.parsed d))
    (hexp : ¬ now > d.expiresAt.getD 0)
    (hatt : d.attempts.getD 0 < 10)
    (hmatch : sha256hex code = d.hash) :
    (VerifyBlob.handler email code store now).1 = VerifyBlob.replyOk ∧
    storeGet (VerifyBlob.handler email code store now).2 ("code:" ++ email)
      = none ∧
    (VerifyBlob.handler email code
        (VerifyBlob.handler email code store now).2 now2).1
      = VerifyBlob.replyNoCode := by
  have hatt2 : ¬ d.attempts.getD 0 ≥ 10 := by omega
  refine ⟨?_, ?_, ?_⟩ <;>
    simp [VerifyBlob.handler, he, hc, hget, hexp, hatt2, hmatch,
          storeGet_delete]

/-- Witness for C1 at a concrete store, code and time. -/
theorem claim1_witness :
    (VerifyBlob.handler "a@x.com" "482913" exStore0 60000).1
      = VerifyBlob.replyOk ∧
    storeGet (VerifyBlob.handler "a@x.com" "482913" exStore0 60000).2
      ("code:" ++ "a@x.com") = none ∧
    (VerifyBlob.handler "a@x.com" "482913"
        (VerifyBlob.handler "a@x.com" "482913" exStore0 60000).2 61000).1
      = VerifyBlob.replyNoCode :=
  claim1_blob_one_time_use "a@x.com" "482913" exStore0 60000 61000 exData0
    (by decide) (by decide) rfl (by decide) (by decide) rfl

/-- Counterexample to C1 as stated: the Supabase verify version
(verify-code.js, lines 249–256) returns success WITHOUT deleting the row,
so a second verify with the same code afterwards returns success again,
not NotFound. -/
theorem claim1_counterexample :
    (VerifySupa.handler "a@x.com" "123456" [exRowSupa] 1000).1
      = VerifySupa.replyOk ∧
    (VerifySupa.handler "a@x.com" "123456" [exRowSupa] 1000).2
      = [exRowSupa] ∧
    (VerifySupa.handler "a@x.com" "123456" [exRowSupa] 2000).1
      = VerifySupa.replyOk := by
  refine ⟨by rfl, by rfl, by rfl⟩

/-! ### Claim C3 -/

/-- Claim C3, amended to the blob-store verify handler: when a live,
unexpired record has `attempts ≥ 10` (that handler's `maxAttempts`), the
next verify call — with any code, including the correct one — returns
TooManyAttempts and deletes the record, and a subsequent verify returns
NotFound.  (The Supabase version uses ceiling 5 and does not delete — see
the counterexample.) -/
theorem claim3_blob_attempt_limit (email code code2 : String)
    (store : BlobStore) (now now2 : Nat) (d : BlobData)
    (he : email ≠ "") (hc : code ≠ "") (hc2 : code2 ≠ "")
    (hget : storeGet store ("code:" ++ email) = some (BlobVal.parsed d))
    (hexp : ¬ now > d.expiresAt.getD 0)
    (hatt : d.attempts.getD 0 ≥ 10) :
    (VerifyBlob.handler email code store now).1 = VerifyBlob.replyTooMany ∧
    storeGet (VerifyBlob.handler email code store now).2 ("code:" ++ email)
      = none ∧
    (VerifyBlob.handler email code2
        (VerifyBlob.handler email code store now).2 now2).1
      = VerifyBlob.replyNoCode := by
  refine ⟨?_, ?_, ?_⟩ <;>
    simp [VerifyBlob.handler, he, hc, hc2, hget, hexp, hatt, storeGet_delete]

/-- Witness for C3: a record with 10 failed attempts, verified with the
correct code. -/
theorem claim3_witness :
    (VerifyBlob.handler "a@x.com" "482913" exStore10 60000).1
      = VerifyBlob.replyTooMany ∧
    storeGet (VerifyBlob.handler "a@x.com" "482913" exStore10 60000).2
      ("code:" ++ "a@x.com") = none ∧
    (VerifyBlob.handler "a@x.com" "482913"
        (VerifyBlob.handler "a@x.com" "482913" exStore10 60000).2 61000).1
      = VerifyBlob.replyNoCode :=
  claim3_blob_attempt_limit "a@x.com" "482913" "482913" exStore10 60000 61000
    exData10 (by decide) (by decide) (by decide) rfl (by decide) (by decide)

/-- Counterexample to C3 as stated: the Supabase verify version
(verify-code.js, lines 216–219) returns TooManyAttempts (403) without
deleting the row, so the subsequent call returns TooManyAttempts again,
not NotFound. -/
theorem claim3_counterexample :
    (VerifySupa.handler "a@x.com" "123456" [exRowSupa5] 1000).1
      = VerifySupa.replyTooMany ∧
    (VerifySupa.handler "a@x.com" "123456" [exRowSupa5] 1000).2
      = [exRowSupa5] ∧
    (VerifySupa.handler "a@x.com" "123456" [exRowSupa5] 2000).1
      = VerifySupa.replyTooMany ∧
    VerifySupa.replyTooMany ≠ VerifySupa.replyNoCode := by
  refine ⟨by rfl, by rfl, by rfl, by decide⟩

/-! ### Claim C4 -/

/-- Claim C4, amended to the blob-store verify handler: a verify call made
strictly after the record's expiry deletes the record and fails with
Expired — never success — regardless of the candidate code (no hypothesis
relates `code` to the stored digest).  (The Supabase version also never
succeeds on an expired row but increments `attempts` and keeps the row
instead of deleting it — see the counterexample.) -/
theorem claim4_blob_expired (email code : String) (store : BlobStore)
    (now : Nat) (d : BlobData)
    (he : email ≠ "") (hc : code ≠ "")
    (hget : storeGet store ("code:" ++ email) = some (BlobVal.parsed d))
    (hexp : now > d.expiresAt.getD 0) :
    (VerifyBlob.handler email code store now).1 = VerifyBlob.replyExpired ∧
    (VerifyBlob.handler email code store now).1 ≠ VerifyBlob.replyOk ∧
    storeGet (VerifyBlob.handler email code store now).2 ("code:" ++ email)
      = none := by
  refine ⟨?_, ?_, ?_⟩ <;>
    simp [VerifyBlob.handler, he, hc, hget, hexp, storeGet_delete,
          VerifyBlob.replyExpired, VerifyBlob.replyOk]

/-- Witness for C4: an expired record verified with the CORRECT code still
fails with Expired and is deleted. -/
theorem claim4_witness :
    (VerifyBlob.handler "a@x.com" "482913" exStoreExp 1000).1
      = VerifyBlob.replyExpired ∧
    (VerifyBlob.handler "a@x.com" "482913" exStoreExp 1000).1
      ≠ VerifyBlob.replyOk ∧
    storeGet (VerifyBlob.handler "a@x.com" "482913" exStoreExp 1000).2
      ("code:" ++ "a@x.com") = none :=
  claim4_blob_expired "a@x.com" "482913" exStoreExp 1000 exDataExp
    (by decide) (by decide) rfl (by decide)

/-- Counterexample to C4 as stated: the Supabase verify version
(verify-code.js, lines 221–233) fails an expired row with Expired but does
NOT delete it — it increments `attempts` and keeps the row. -/
theorem claim4_counterexample :
    (VerifySupa.handler "a@x.com" "123456" [exRowSupaExp] 1000).1
      = VerifySupa.replyExpired ∧
    (VerifySupa.handler "a@x.com" "123456" [exRowSupaExp] 1000).2
      = [⟨"a@x.com", sha256hex "123456", 1, some 500, 0⟩] := by
  refine ⟨by rfl, by rfl⟩

/-! ### Claim C5 -/

/-- Claim C5, amended to the blob-store verify handler: on a live,
unexpired, under-limit record, a mismatching verify fails with InvalidCode
and writes the record back with `attempts` incremented by exactly one and
all other fields unchanged (conjuncts 1–2), leaving every other key of the
store untouched (conjunct 3); a matching verify only deletes the record —
it performs no attempts write (conjunct 4).  (The part_010 verify version
increments `attempts` even on a successful match — see the
counterexample.) -/
theorem claim5_blob_mismatch_frame (email code code2 k2 : String)
    (store : BlobStore) (now : Nat) (d : BlobData)
    (he : email ≠ "") (hc : code ≠ "") (hc2 : code2 ≠ "")
    (hget : storeGet store ("code:" ++ email) = some (BlobVal.parsed d))
    (hexp : ¬ now > d.expiresAt.getD 0)
    (hatt : ¬ d.attempts.getD 0 ≥ 10)
    (hmis : ¬ sha256hex code = d.hash)
    (hmatch2 : sha256hex code2 = d.hash)
    (hk2 : k2 ≠ "code:" ++ email) :
    (VerifyBlob.handler email code store now).1 = VerifyBlob.replyInvalid ∧
    storeGet (VerifyBlob.handler email code store now).2 ("code:" ++ email)
      = some (BlobVal.parsed
          ⟨d.hash, d.expiresAt, some (d.attempts.getD 0 + 1)⟩) ∧
    storeGet (VerifyBlob.handler email code store now).2 k2
      = storeGet store k2 ∧
    (VerifyBlob.handler email code2 store now).2
      = storeDelete store ("code:" ++ email) := by
  refine ⟨?_, ?_, ?_, ?_⟩ <;>
    simp [VerifyBlob.handler, he, hc, hc2, hget, hexp, hatt, hmis, hmatch2,
          storeGet_set, storeGet_set_ne, hk2]

/-- Witness for C5: the wrong code "111111" against a record for "482913"
bumps attempts 0 → 1 and keeps the record; the right code deletes it. -/
theorem claim5_witness :
    (VerifyBlob.handler "a@x.com" "111111" exStore0 60000).1
      = VerifyBlob.replyInvalid ∧
    storeGet (VerifyBlob.handler "a@x.com" "111111" exStore0 60000).2
      ("code:" ++ "a@x.com")
      = some (BlobVal.parsed ⟨exData0.hash, exData0.expiresAt, some 1⟩) ∧
    storeGet (VerifyBlob.handler "a@x.com" "111111" exStore0 60000).2
      "code:b@x.com" = storeGet exStore0 "code:b@x.com" ∧
    (VerifyBlob.handler "a@x.com" "482913" exStore0 60000).2
      = storeDelete exStore0 ("code:" ++ "a@x.com") :=
  claim5_blob_mismatch_frame "a@x.com" "111111" "482913" "code:b@x.com"
    exStore0 60000 exData0 (by decide) (by decide) (by decide) rfl
    (by decide) (by decide) (by decide) rfl (by decide)

/-- Counterexample to C5 as stated: in the part_010 verify version the
attempts counter is bumped before the hash comparison, so even a MATCHING
verify returns success with `attempts` incremented (the claim says a
matching verify does not increment attempts). -/
theorem claim5_counterexample :
    (VerifyP010.handler "a@x.com" "482913" [exRow10] 60000).1
      = VerifyP010.replyOk ∧
    (VerifyP010.handler "a@x.com" "482913" [exRow10] 60000).2
      = [⟨"a@x.com", sha256hex "482913", 1, some 600000, 0⟩] := by
  refine ⟨by rfl, by rfl⟩

/-! ### Claim C10 -/

/-- Claim C10 (confirmed): if the stored blob for a principal fails to
parse as JSON, the blob-store verify handler deletes it and fails with the
invalid-code error ("Code invalid. Request a new one."), never success,
and the key is absent from the store afterwards. -/
theorem claim10_corrupt_record (email code s : String) (store : BlobStore)
    (now : Nat)
    (he : email ≠ "") (hc : code ≠ "")
    (hget : storeGet store ("code:" ++ email) = some (BlobVal.bad s)) :
    (VerifyBlob.handler email code store now).1 = VerifyBlob.replyCorrupt ∧
    (VerifyBlob.handler email code store now).1.ok = false ∧
    storeGet (VerifyBlob.handler email code store now).2 ("code:" ++ email)
      = none := by
  refine ⟨?_, ?_, ?_⟩ <;>
    simp [VerifyBlob.handler, he, hc, hget, storeGet_delete,
          VerifyBlob.replyCorrupt]

/-- Witness for C10 at a store holding an unparseable blob. -/
theorem claim10_witness :
    (VerifyBlob.handler "a@x.com" "482913" exStoreBad 1000).1
      = VerifyBlob.replyCorrupt ∧
    (VerifyBlob.handler "a@x.com" "482913" exStoreBad 1000).1.ok = false ∧
    storeGet (VerifyBlob.handler "a@x.com" "482913" exStoreBad 1000).2
      ("code:" ++ "a@x.com") = none :=
  claim10_corrupt_record "a@x.com" "482913" "not json" exStoreBad 1000
    (by decide) (by decide) rfl

/-! ### Claim C2 -/

/-- Claim C2, amended: the hasher of src/unnamed/part_003 binds the
principal — its digest inputs for distinct principals (same code) are
distinct strings, so a digest is tied to its principal; the hasher of
send-code.js does NOT — the digest it stores depends only on the code, so
the stored digests of two distinct principals with the same code
coincide. -/
theorem claim2_principal_binding (pa pb code : String) (h : pa ≠ pb) :
    P003.hashInput pa code ≠ P003.hashInput pb code ∧
    SendV1.storedDigest pa code = SendV1.storedDigest pb code := by
  constructor
  · intro hEq
    apply h
    have hd : (pa.data ++ [':']) ++ code.data
        = (pb.data ++ [':']) ++ code.data := congrArg String.data hEq
    have h2 : pa.data ++ [':'] = pb.data ++ [':'] :=
      List.append_cancel_right hd
    have h3 : pa.data = pb.data := List.append_cancel_right h2
    exact congrArg String.mk h3
  · rfl

/-- Witness for C2's amendment at two concrete principals. -/
theorem claim2_witness :
    P003.hashInput "a@x.com" "482913" ≠ P003.hashInput "b@x.com" "482913" ∧
    SendV1.storedDigest "a@x.com" "482913"
      = SendV1.storedDigest "b@x.com" "482913" :=
  claim2_principal_binding "a@x.com" "b@x.com" "482913" (by decide)

/-- Counterexample to C2 as stated: the send-code.js hasher (lines 29–35;
`hashCode(code)` with no principal argument) stores the SAME digest for
two distinct principals sharing a code, where the claim requires distinct
digests. -/
theorem claim2_counterexample :
    SendV1.storedDigest "a@x.com" "482913"
      = SendV1.storedDigest "b@x.com" "482913" := rfl

/-! ### Claim C6 -/

/-- Claim C6 (confirmed, on src/unnamed/part_001): for a valid issuance
request the handler's side effects are the store insert followed by the
delivery attempt (in that order, for either delivery outcome `b`); and
when delivery fails, the caller gets the DeliveryError reply ("Email send
failed", 500) while the inserted record remains in the table — no
rollback. -/
theorem claim6_store_before_dispatch (email rank lastName phone : String)
    (n : Nat) (db : List SendP001.Row001) (now : Nat) (b : Bool)
    (hv : isEmail email = true) :
    (SendP001.handler email rank lastName phone n db true b now).2.2
      = [Ev.dbInsert, Ev.emailSend] ∧
    (SendP001.handler email rank lastName phone n db true false now).1
      = SendP001.replyMailFail ∧
    (SendP001.handler email rank lastName phone n db true false now).2.1
      = db ++ [⟨email, SendP001.hashCode (SendP001.makeCode n), 0,
               now + 600000, rank, lastName, phone⟩] := by
  have hne : ¬ (email = "" ∨ isEmail email = false) := by
    simp [hv]
    intro he
    rw [he] at hv
    exact absurd hv (by decide)
  refine ⟨?_, ?_, ?_⟩
  · cases b <;> simp [SendP001.handler, hne]
  · simp [SendP001.handler, hne]
  · simp [SendP001.handler, hne]

/-- Witness for C6: concrete valid email, failed delivery. -/
theorem claim6_witness :
    (SendP001.handler "a@b.co" "Maj" "Orozco" "5551234" 42 [] true false 0).2.2
      = [Ev.dbInsert, Ev.emailSend] ∧
    (SendP001.handler "a@b.co" "Maj" "Orozco" "5551234" 42 [] true false 0).1
      = SendP001.replyMailFail ∧
    (SendP001.handler "a@b.co" "Maj" "Orozco" "5551234" 42 [] true false 0).2.1
      = [] ++ [⟨"a@b.co", SendP001.hashCode (SendP001.makeCode 42), 0,
               0 + 600000, "Maj", "Orozco", "5551234"⟩] :=
  claim6_store_before_dispatch "a@b.co" "Maj" "Orozco" "5551234" 42 [] 0 false
    (by decide)

/-! ### Claim C7 -/

/-- Claim C7, amended to src/unnamed/part_001 (which does check the
RFC-shaped pattern): an issuance request whose principal fails the email
pattern gets the ValidationError reply ("Valid email required", 400) with
the table unchanged and no side effect attempted.  (The send-code.js
version only checks non-emptiness, so a syntactically invalid principal
reaches the store write there — see the counterexample.) -/
theorem claim7_validation_no_side_effects (email rank lastName phone : String)
    (n : Nat) (db : List SendP001.Row001) (dbOk emailOk : Bool) (now : Nat)
    (h : isEmail email = false) :
    SendP001.handler email rank lastName phone n db dbOk emailOk now
      = (SendP001.replyBadEmail, db, []) := by
  simp [SendP001.handler, h]

/-- Witness for C7 at a concrete malformed principal. -/
theorem claim7_witness :
    SendP001.handler "not-an-email" "" "" "" 0 [] true true 0
      = (SendP001.replyBadEmail, [], []) :=
  claim7_validation_no_side_effects "not-an-email" "" "" "" 0 [] true true 0
    (by decide)

/-- Counterexample to C7 as stated: the send-code.js version validates
only non-emptiness (line 59), so the syntactically invalid principal "x"
(which fails the RFC-shaped pattern) still causes a store write and a
delivery call. -/
theorem claim7_counterexample :
    isEmail "x" = false ∧
    (SendV1.handler "x" 42 ([] : Table) true true 0).2.2
      = [Ev.dbInsert, Ev.emailSend] ∧
    (SendV1.handler "x" 42 ([] : Table) true true 0).2.1 ≠ ([] : Table) := by
  refine ⟨by decide, by rfl, by simp [SendV1.handler]⟩

/-! ### Claim C8 -/

/-- Claim C8, amended to src/unnamed/part_001's `makeCode` (which takes
`crypto.randomInt(0, 1000000)`, a cryptographically secure uniform draw
over the full range): for every draw `n < 10^6` the output is a 6-character
numeric string that decodes back to `n` — so distinct values give distinct
codes and every value, including those with leading zeros, is a possible
output.  (The send-code.js generator instead uses `Math.random()` over
[100000, 10^6) and can never output a code with a leading zero — see the
counterexample.) -/
theorem claim8_code_generator (n : Nat) (h : n < 1000000) :
    (SendP001.makeCode n).length = 6 ∧
    (SendP001.makeCode n).data.all Char.isDigit = true ∧
    parseDecL (SendP001.makeCode n).data = n := by
  have h6 : n < 10 ^ 6 := by omega
  have hlen : (decChars n).length ≤ 6 :=
    decCharsAux_length (n + 1) n 6 (by omega) h6 (by omega)
  refine ⟨?_, ?_, ?_⟩
  · simp only [SendP001.makeCode, padStart, decimalRepr, String.length]
    simp only [decChars] at hlen ⊢
    simp [List.length_append]
    omega
  · have hdig := decCharsAux_digits (n + 1) n (by omega)
    simp only [SendP001.makeCode, padStart, decimalRepr]
    simp only [decChars] at hdig ⊢
    simp [List.all_append, hdig, List.all_eq_true]
  · have hp := parse_pad_decChars (6 - (decChars n).length) n
    simp only [SendP001.makeCode, padStart, decimalRepr, parseDecL] at hp ⊢
    simp only [decChars] at hp ⊢
    simpa using hp

/-- Witness for C8 at the draw 7, whose code is "000007". -/
theorem claim8_witness :
    (SendP001.makeCode 7).length = 6 ∧
    (SendP001.makeCode 7).data.all Char.isDigit = true ∧
    parseDecL (SendP001.makeCode 7).data = 7 :=
  claim8_code_generator 7 (by decide)

/-- Counterexample to C8 as stated: the send-code.js generator (line 66,
`String(Math.floor(100000 + Math.random() * 900000))`) can never output
"000123" — or any code with a leading zero — although the claim says every
value in [0, 10^6), including those with leading zeros, is a possible
output. -/
theorem claim8_counterexample : ¬ canOutputV1 "000123" := by
  rintro ⟨k, hk⟩
  have h1 : parseDecL (SendV1.genCode k).data = 100000 + k % 900000 := by
    simpa [SendV1.genCode, decimalRepr, parseDecL] using
      parse_decChars (100000 + k % 900000)
  rw [hk] at h1
  have h2 : parseDecL ("000123".data) = 123 := by decide
  omega

/-! ### Claim C9 -/

/-- Claim C9 (confirmed, for both embedded issue handlers): the HTTP reply
is independent of the generated code — two runs differing only in the
random draw (hence in the raw code) produce identical replies in every
branch, so the reply never contains the raw code. -/
theorem claim9_no_code_in_response (email rank lastName phone : String)
    (n n2 k k2 : Nat) (db1 : List SendP001.Row001) (db2 : Table)
    (dbOk emailOk : Bool) (now : Nat) :
    (SendP001.handler email rank lastName phone n db1 dbOk emailOk now).1
      = (SendP001.handler email rank lastName phone n2 db1 dbOk emailOk now).1 ∧
    (SendV1.handler email k db2 dbOk emailOk now).1
      = (SendV1.handler email k2 db2 dbOk emailOk now).1 := by
  constructor
  · by_cases h1 : email = "" ∨ isEmail email = false <;>
      by_cases h2 : dbOk = false <;>
        by_cases h3 : emailOk = false <;>
          simp [SendP001.handler, h1, h2, h3]
  · by_cases h1 : email = "" <;>
      by_cases h2 : dbOk = false <;>
        by_cases h3 : emailOk = false <;>
          simp [SendV1.handler, h1, h2, h3]
